import Mathlib

/-!
Verification development for the KisanMitra AI Cloud Functions core:
the `askGemini` handler (prompt construction, response parsing/normalization,
persistence), `transcribeAudio`, `synthesizeSpeech`, and their shared
validators, shallowly embedded from the JavaScript sources
(`functions/src/askGemini.js`, `functions/src/utils/validators.js`,
`functions/src/utils/auth.js`, `functions/src/prompts/agricultural.js`,
`functions/src/transcribeAudio.js`, `functions/src/synthesizeSpeech.js`).

JavaScript values flowing through the handlers are modelled by the `Json`
inductive (callable-function payloads are JSON-decoded, so `undefined` never
occurs inside a payload; an absent object property is modelled by
`Option.none`). Numbers are modelled exactly as mantissa x 10^exponent pairs
(JSON numeric literals are finite decimals); `String.length` counts Unicode
code points where JS counts UTF-16 units, which agrees on all inputs used
here. External collaborators (Gemini, Speech-to-Text, Text-to-Speech,
Firestore, Storage) are modelled as environment records supplying each
call's outcome, and each handler returns its result together with the list
of external effects it performed, in order.
-/

/-- JSON value, as decoded by `JSON.parse` / the callable-functions codec.
Numbers are `mantissa * 10 ^ exponent`. -/
inductive Json where
  | null : Json
  | bool : Bool → Json
  | num : Int → Int → Json
  | str : String → Json
  | arr : List Json → Json
  | obj : List (String × Json) → Json

/-- Last-binding-wins association lookup, matching JS object semantics where
a duplicated key in a JSON text keeps the last value. -/
def lookupLast : List (String × Json) → String → Option Json
  | [], _ => none
  | (k, v) :: rest, key =>
    match lookupLast rest key with
    | some r => some r
    | none => if k = key then some v else none

/-- JS property access `v[key]`: defined bindings on objects, `undefined`
(`none`) on everything else. -/
def jsGet : Option Json → String → Option Json
  | some (.obj kvs), key => lookupLast kvs key
  | _, _ => none

/-- JS truthiness of a possibly-`undefined` value. -/
def jsTruthy : Option Json → Bool
  | none => false
  | some .null => false
  | some (.bool b) => b
  | some (.num m _) => m != 0
  | some (.str s) => s != ""
  | some (.arr _) => true
  | some (.obj _) => true

/-- Whether a JSON value is a string. -/
def Json.isStr : Json → Bool
  | .str _ => true
  | _ => false

/-- Whether a JSON value is an array (JS `Array.isArray`). -/
def Json.isArr : Json → Bool
  | .arr _ => true
  | _ => false

/-- Strip one trailing zero from a decimal mantissa/exponent pair. -/
def stripZeros : Nat → Int → Nat → Nat × Int
  | n, e, 0 => (n, e)
  | n, e, fuel + 1 =>
    if n % 10 = 0 && n ≠ 0 then stripZeros (n / 10) (e + 1) fuel else (n, e)

/-- Render `n * 10 ^ e` (n, e after zero-stripping) as a decimal numeral. -/
def renderDecimal (n : Nat) (e : Int) : String :=
  if n = 0 then "0"
  else if 0 ≤ e then
    toString (n * 10 ^ e.toNat)
  else
    let ds := toString n
    let k := (-e).toNat
    if ds.length > k then
      let cs := ds.toList
      String.mk (cs.take (ds.length - k)) ++ "." ++ String.mk (cs.drop (ds.length - k))
    else
      "0." ++ String.mk (List.replicate (k - ds.length) '0') ++ ds

/-- JS `String(number)` conversion for a finite decimal, up to the
exponent-notation thresholds (not reached by any input in this development). -/
def numToString (m e : Int) : String :=
  let (n, e2) := stripZeros m.natAbs e (m.natAbs + 1)
  (if m < 0 then "-" else "") ++ renderDecimal n e2

mutual
/-- JS `String(v)` conversion used by template-literal interpolation. -/
def jsToString : Json → String
  | .null => "null"
  | .bool true => "true"
  | .bool false => "false"
  | .num m e => numToString m e
  | .str s => s
  | .arr xs => joinSep "," xs
  | .obj _ => "[object Object]"

/-- JS `Array.prototype.join(sep)`: elements stringified, `null` rendered
as the empty string. -/
def joinSep : String → List Json → String
  | _, [] => ""
  | _, [.null] => ""
  | _, [x] => jsToString x
  | sep, .null :: xs => "" ++ sep ++ joinSep sep xs
  | sep, x :: xs => jsToString x ++ sep ++ joinSep sep xs
end

/-- JS template interpolation of a possibly-`undefined` value
(`undefined` renders as the literal text "undefined"). -/
def jsShow : Option Json → String
  | none => "undefined"
  | some v => jsToString v

/-- Characters removed by JS `String.prototype.trim` (ASCII whitespace plus
NBSP and BOM; the remaining Unicode space separators are not used here). -/
def jsSpace (c : Char) : Bool :=
  c == ' ' || c == '\t' || c == '\n' || c == '\r' ||
  c.toNat == 0x0B || c.toNat == 0x0C || c.toNat == 0xA0 || c.toNat == 0xFEFF

/-- JS `String.prototype.trim`. -/
def jsTrim (s : String) : String :=
  String.mk (((s.toList.dropWhile jsSpace).reverse.dropWhile jsSpace).reverse)

/-- Whether `needle` occurs at the head of `hay`. -/
def headMatches : List Char → List Char → Bool
  | [], _ => true
  | _ :: _, [] => false
  | a :: as, b :: bs => a == b && headMatches as bs

/-- Whether `needle` occurs as a contiguous run of `hay`. -/
def hasSubList (needle : List Char) : List Char → Bool
  | [] => headMatches needle []
  | c :: rest => headMatches needle (c :: rest) || hasSubList needle rest

/-- JS `String.prototype.includes`. -/
def hasSub (needle hay : String) : Bool :=
  hasSubList needle.toList hay.toList

/-- JS `String.prototype.startsWith`. -/
def strStartsWith (pre s : String) : Bool :=
  headMatches pre.toList s.toList

/-- Skip JSON insignificant whitespace. -/
def skipJsonWs (cs : List Char) : List Char :=
  cs.dropWhile (fun c => c == ' ' || c == '\t' || c == '\n' || c == '\r')

/-- Value of a hexadecimal digit. -/
def hexVal (c : Char) : Option Nat :=
  if '0' ≤ c ∧ c ≤ '9' then some (c.toNat - 48)
  else if 'a' ≤ c ∧ c ≤ 'f' then some (c.toNat - 87)
  else if 'A' ≤ c ∧ c ≤ 'F' then some (c.toNat - 55)
  else none

/-- Parse a JSON string body after the opening quote, returning the decoded
characters and the remaining input. -/
def parseStrBody : List Char → Option (List Char × List Char)
  | [] => none
  | '"' :: rest => some ([], rest)
  | '\\' :: e :: rest =>
    match e with
    | '"' => (parseStrBody rest).map (fun p => ('"' :: p.1, p.2))
    | '\\' => (parseStrBody rest).map (fun p => ('\\' :: p.1, p.2))
    | '/' => (parseStrBody rest).map (fun p => ('/' :: p.1, p.2))
    | 'b' => (parseStrBody rest).map (fun p => ('\x08' :: p.1, p.2))
    | 'f' => (parseStrBody rest).map (fun p => ('\x0c' :: p.1, p.2))
    | 'n' => (parseStrBody rest).map (fun p => ('\n' :: p.1, p.2))
    | 'r' => (parseStrBody rest).map (fun p => ('\r' :: p.1, p.2))
    | 't' => (parseStrBody rest).map (fun p => ('\t' :: p.1, p.2))
    | 'u' =>
      match rest with
      | a :: b :: c :: d :: rest2 =>
        match hexVal a, hexVal b, hexVal c, hexVal d with
        | some x, some y, some z, some w =>
          let n := ((x * 16 + y) * 16 + z) * 16 + w
          if n < 55296 then (parseStrBody rest2).map (fun p => (Char.ofNat n :: p.1, p.2))
          else if 57344 ≤ n then (parseStrBody rest2).map (fun p => (Char.ofNat n :: p.1, p.2))
          else none
        | _, _, _, _ => none
      | _ => none
    | _ => none
  | c :: rest =>
    if c.toNat < 32 then none else (parseStrBody rest).map (fun p => (c :: p.1, p.2))

/-- Consume a run of decimal digits, extending an accumulator; returns the
value, the number of digits consumed, and the remaining input. -/
def takeDigits : Nat → List Char → Nat × Nat × List Char
  | acc, [] => (acc, 0, [])
  | acc, c :: rest =>
    if c.isDigit then
      let (v, n, r) := takeDigits (acc * 10 + (c.toNat - 48)) rest
      (v, n + 1, r)
    else (acc, 0, c :: rest)

/-- Parse an optional JSON exponent part onto a mantissa/exponent pair. -/
def parseExpPart (mant : Int) (e : Int) : List Char → Option (Json × List Char)
  | [] => some (.num mant e, [])
  | c :: rest =>
    if c = 'e' ∨ c = 'E' then
      let (esign, cs2) : Int × List Char :=
        match rest with
        | '+' :: r => (1, r)
        | '-' :: r => (-1, r)
        | _ => (1, rest)
      match cs2 with
      | d :: r2 =>
        if d.isDigit then
          let (v, _, r3) := takeDigits (d.toNat - 48) r2
          some (.num mant (e + esign * (v : Int)), r3)
        else none
      | [] => none
    else some (.num mant e, c :: rest)

/-- Parse an optional JSON fraction then exponent after the integer part. -/
def afterIntPart (neg : Bool) (ip : Nat) : List Char → Option (Json × List Char)
  | '.' :: rest =>
    (match rest with
     | d :: r2 =>
       if d.isDigit then
         let (v, n, r3) := takeDigits (d.toNat - 48) r2
         let sign : Int := if neg then -1 else 1
         parseExpPart (sign * ((ip * 10 ^ (n + 1) + v : Nat) : Int)) (-((n : Int) + 1)) r3
       else none
     | [] => none)
  | cs =>
    let sign : Int := if neg then -1 else 1
    parseExpPart (sign * (ip : Int)) 0 cs

/-- Parse a JSON number literal. -/
def parseNum (cs : List Char) : Option (Json × List Char) :=
  let (neg, cs1) : Bool × List Char :=
    match cs with
    | '-' :: r => (true, r)
    | _ => (false, cs)
  match cs1 with
  | [] => none
  | c :: rest =>
    if c = '0' then afterIntPart neg 0 rest
    else if c.isDigit then
      let (v, _, r) := takeDigits (c.toNat - 48) rest
      afterIntPart neg v r
    else none

mutual
/-- Fuel-indexed JSON value parser (the fuel given at top level always
suffices for the input length). -/
def parseVal : Nat → List Char → Option (Json × List Char)
  | 0, _ => none
  | fuel + 1, cs =>
    match skipJsonWs cs with
    | [] => none
    | 'n' :: 'u' :: 'l' :: 'l' :: rest => some (.null, rest)
    | 't' :: 'r' :: 'u' :: 'e' :: rest => some (.bool true, rest)
    | 'f' :: 'a' :: 'l' :: 's' :: 'e' :: rest => some (.bool false, rest)
    | '"' :: rest => (parseStrBody rest).map (fun p => (.str (String.mk p.1), p.2))
    | '[' :: rest =>
      (match skipJsonWs rest with
       | ']' :: r2 => some (.arr [], r2)
       | cs2 => (parseElems fuel cs2).map (fun p => (.arr p.1, p.2)))
    | '\x7b' :: rest =>
      (match skipJsonWs rest with
       | '\x7d' :: r2 => some (.obj [], r2)
       | cs2 => (parseMembers fuel cs2).map (fun p => (.obj p.1, p.2)))
    | c :: cs2 => if c = '-' ∨ c.isDigit then parseNum (c :: cs2) else none

/-- Parse the elements of a non-empty JSON array up to the closing bracket. -/
def parseElems : Nat → List Char → Option (List Json × List Char)
  | 0, _ => none
  | fuel + 1, cs =>
    match parseVal fuel cs with
    | none => none
    | some (v, rest) =>
      match skipJsonWs rest with
      | ',' :: r2 => (parseElems fuel r2).map (fun p => (v :: p.1, p.2))
      | ']' :: r2 => some ([v], r2)
      | _ => none

/-- Parse the members of a non-empty JSON object up to the closing brace. -/
def parseMembers : Nat → List Char → Option (List (String × Json) × List Char)
  | 0, _ => none
  | fuel + 1, cs =>
    match skipJsonWs cs with
    | '"' :: rest =>
      (match parseStrBody rest with
       | none => none
       | some (kcs, r2) =>
         match skipJsonWs r2 with
         | ':' :: r3 =>
           (match parseVal fuel r3 with
            | none => none
            | some (v, r4) =>
              match skipJsonWs r4 with
              | ',' :: r5 => (parseMembers fuel r5).map (fun p => ((String.mk kcs, v) :: p.1, p.2))
              | '\x7d' :: r5 => some ([(String.mk kcs, v)], r5)
              | _ => none)
         | _ => none)
    | _ => none
end

/-- Model of `JSON.parse`: parse one JSON value and require only whitespace
after it. -/
def Json.parse (s : String) : Option Json :=
  let cs := s.toList
  match parseVal (2 * cs.length + 8) cs with
  | some (j, rest) => if (skipJsonWs rest).isEmpty then some j else none
  | none => none

example : Json.parse "\x7b\"a\": [1, \"x\"], \"a\": true\x7d" =
    some (.obj [("a", .arr [.num 1 0, .str "x"]), ("a", .bool true)]) := rfl
example : Json.parse "\x7b\"a\": 1\x7d junk" = none := rfl
example : Json.parse "-12.50e2" = some (.num (-1250) 0) := rfl

/-- Model of the regex match `responseText.match of open-brace .. close-brace`
in `askGemini`: the match exists exactly when some open brace is followed by a
later close brace, and then spans from the first open brace to the last close
brace of the whole text (leftmost start, greedy end). -/
def extractBraces (s : String) : Option String :=
  let cs := s.toList
  match cs.findIdx? (· == '\x7b'), cs.reverse.findIdx? (· == '\x7d') with
  | some i, some k =>
    let j := cs.length - 1 - k
    if i < j then some (String.mk ((cs.drop i).take (j - i + 1))) else none
  | _, _ => none

example : extractBraces "a \x7b b \x7d c \x7d d" = some "\x7b b \x7d c \x7d" := rfl
example : extractBraces "\x7d\x7b" = none := rfl
example : extractBraces "no braces" = none := rfl

/-- A thrown JS `Error`, identified by its message. -/
inductive JsErr where
  | err (msg : String)

/-- Message of a thrown error. -/
def JsErr.msg : JsErr → String
  | .err m => m

/-- Normalized AI response assembled by `askGemini` after parsing. -/
structure AIResp where
  answer : Json
  confidence : String
  sources : List Json
  suggestions : List Json

/-- Fallback object built in the JSON-parse catch block of `askGemini`. -/
def geminiFallback (responseText : String) : Json :=
  .obj [("answer", .str responseText), ("confidence", .str "Medium"),
        ("sources", .arr [.str "Gemini AI"]), ("suggestions", .arr [])]

/-- Brace extraction followed by `JSON.parse`; `none` is the case where the
catch block of `askGemini` installs the fallback object. -/
def extractParse (responseText : String) : Option Json :=
  (extractBraces responseText).bind Json.parse

/-- The `validConfidenceLevels` list of `askGemini`. -/
def validConfidenceLevels : List String := ["High", "Medium", "Low"]

/-- Response parsing and normalization section of `askGemini`: JSON
extraction with fallback, the missing-answer check, and the
confidence/sources/suggestions normalizations. -/
def parseGeminiResponse (responseText : String) : Except JsErr AIResp :=
  let aiResponse :=
    match extractParse responseText with
    | some j => j
    | none => geminiFallback responseText
  if jsTruthy (jsGet (some aiResponse) "answer") = false then
    .error (.err "Invalid AI response: missing answer field")
  else
    .ok {
      answer := (jsGet (some aiResponse) "answer").getD .null
      confidence :=
        match jsGet (some aiResponse) "confidence" with
        | some (.str s) => if validConfidenceLevels.contains s then s else "Medium"
        | _ => "Medium"
      sources :=
        match jsGet (some aiResponse) "sources" with
        | some (.arr xs) => xs
        | _ => [.str "Gemini AI"]
      suggestions :=
        match jsGet (some aiResponse) "suggestions" with
        | some (.arr xs) => xs
        | _ => [] }

/-- The `supportedLanguages` list of `validateLanguage`. -/
def supportedLanguages : List String := ["en", "hi", "ta", "te"]

/-- Whether `validateRequiredFields` counts a field as missing: absent,
`null`, or the empty string (strict-equality checks in the source). -/
def fieldMissing (data : Json) (field : String) : Bool :=
  match jsGet (some data) field with
  | none => true
  | some .null => true
  | some (.str s) => s == ""
  | _ => false

/-- The `validateRequiredFields` helper of `validators.js`: collects every
missing field and fails listing all of them. -/
def validateRequiredFields (data : Json) (requiredFields : List String) :
    Except JsErr Unit :=
  let missingFields := requiredFields.filter (fieldMissing data)
  if missingFields.isEmpty then .ok ()
  else .error (.err ("Missing required fields: " ++ String.intercalate ", " missingFields))

/-- The `validateLanguage` helper of `validators.js`: a truthy value that is
one of the four supported codes (strict equality, so only strings pass). -/
def validateLanguage (language : Option Json) : Except JsErr String :=
  match language with
  | some (.str s) =>
    if s ≠ "" ∧ supportedLanguages.contains s then .ok s
    else .error (.err ("Unsupported language: " ++ s ++ ". Supported: en, hi, ta, te"))
  | v => .error (.err ("Unsupported language: " ++ jsShow v ++ ". Supported: en, hi, ta, te"))

/-- The `validateTextLength` helper of `validators.js`: requires a truthy
string, bounds its pre-trim length, and returns the trimmed text. -/
def validateTextLength (text : Option Json) (maxLength : Nat) : Except JsErr String :=
  match text with
  | some (.str s) =>
    if s = "" then .error (.err "Invalid text input")
    else if s.length > maxLength then
      .error (.err ("Text too long. Maximum length: " ++ toString maxLength ++ " characters"))
    else .ok (jsTrim s)
  | _ => .error (.err "Invalid text input")

/-- The `validateAudioPath` helper of `validators.js`: a truthy string that
starts with the literal "audio/". -/
def validateAudioPath (audioPath : Option Json) : Except JsErr String :=
  match audioPath with
  | some (.str s) =>
    if s = "" then .error (.err "Invalid audio path")
    else if strStartsWith "audio/" s then .ok s
    else .error (.err "Invalid audio path format. Must start with 'audio/'")
  | _ => .error (.err "Invalid audio path")

/-- The `context.auth` payload of a callable-function invocation. -/
structure AuthInfo where
  uid : String

/-- Callable-function context. -/
structure CallContext where
  auth : Option AuthInfo

/-- The `validateAuth` middleware of `auth.js`. -/
def validateAuth (context : CallContext) : Except JsErr String :=
  match context.auth with
  | none => .error (.err "Unauthenticated: No auth token provided")
  | some a =>
    if a.uid = "" then .error (.err "Unauthenticated: Invalid auth token")
    else .ok a.uid

/-- Whether the context carries a valid authenticated identity (both checks
of `validateAuth` pass). -/
def hasValidIdentity (context : CallContext) : Bool :=
  match context.auth with
  | none => false
  | some a => a.uid != ""

/-- The `crops` local of `buildAgriculturalPrompt`:
`farmProfile.crops?.join(", ") || "Not specified"`. A truthy non-array value
has no `join` method, which throws (`none`); an absent/null value or an
empty join result yields the default. -/
def cropsField (farmProfile : Json) : Option String :=
  match jsGet (some farmProfile) "crops" with
  | none => some "Not specified"
  | some .null => some "Not specified"
  | some (.arr xs) =>
    let s := joinSep ", " xs
    some (if s = "" then "Not specified" else s)
  | some _ => none

/-- A `farmProfile.location?.key || "Not specified"` local of
`buildAgriculturalPrompt`. -/
def locField (farmProfile : Json) (key : String) : String :=
  match jsGet (some farmProfile) "location" with
  | none => "Not specified"
  | some .null => "Not specified"
  | some loc =>
    let v := jsGet (some loc) key
    if jsTruthy v then jsShow v else "Not specified"

/-- A `farmProfile.key || "Not specified"` local of
`buildAgriculturalPrompt` (soilType, irrigationType, season). -/
def simpleField (farmProfile : Json) (key : String) : String :=
  let v := jsGet (some farmProfile) key
  if jsTruthy v then jsShow v else "Not specified"

/-- The `area` local of `buildAgriculturalPrompt`: a template literal over
`farmProfile.area.value` and `farmProfile.area.unit` when `area` is truthy,
else "Not specified". A missing component interpolates as "undefined". -/
def areaField (farmProfile : Json) : String :=
  let a := jsGet (some farmProfile) "area"
  if jsTruthy a then jsShow (jsGet a "value") ++ " " ++ jsShow (jsGet a "unit")
  else "Not specified"

/-- The `languageNames[language] || "English"` lookup of
`buildAgriculturalPrompt`. -/
def langNameOf (language : String) : String :=
  match language with
  | "en" => "English"
  | "hi" => "Hindi"
  | "ta" => "Tamil"
  | "te" => "Telugu"
  | _ => "English"

/-- The template literal returned by `buildAgriculturalPrompt`, as a function
of the already-computed substitution strings. -/
def renderPrompt (crops village district state soilType irrigationType area
    season languageName question : String) : String :=
  "You are KisanMitra AI, an expert agricultural advisor for Indian farmers with deep knowledge of:
- Indian agriculture practices and regional variations
- Crop diseases, pests, and their management
- Soil health and fertilizer recommendations
- Water management and irrigation techniques
- Government schemes and subsidies for farmers
- Weather patterns and seasonal advice
- Organic farming and sustainable practices

FARMER\x27S CONTEXT:
- Crops: " ++ crops ++ "
- Location: " ++ village ++ ", " ++ district ++ ", " ++ state ++ "
- Soil Type: " ++ soilType ++ "
- Irrigation: " ++ irrigationType ++ "
- Farm Area: " ++ area ++ "
- Current Season: " ++ season ++ "

INSTRUCTIONS:
1. Answer the farmer\x27s question accurately and practically, considering their specific farm context.
2. Provide actionable advice that the farmer can implement immediately.
3. Answer in " ++ languageName ++ " - the farmer\x27s preferred language.
4. Keep answers concise but comprehensive (2-4 paragraphs maximum).
5. Include specific product names, dosages, or techniques when relevant (with local market names).
6. Mention if the farmer should consult a local agricultural officer, Krishi Vigyan Kendra (KVK), or veterinarian for serious issues.
7. Consider regional practices common to " ++ state ++ ".
8. If the question is about government schemes, mention eligibility and application process.
9. Always prioritize safe, sustainable, and cost-effective solutions.

RESPONSE FORMAT (respond in valid JSON):
\x7b
  \"answer\": \"Your detailed answer here in " ++ languageName ++ "\",
  \"confidence\": \"High\" | \"Medium\" | \"Low\",
  \"sources\": [\"Source 1\", \"Source 2\", \"Source 3\"],
  \"suggestions\": [\"Follow-up suggestion 1\", \"Follow-up suggestion 2\"]
\x7d

Guidelines for confidence level:
- High: You\x27re certain about the advice based on established agricultural science
- Medium: The advice is sound but may vary based on specific conditions
- Low: Limited information or the issue requires professional in-person diagnosis

FARMER\x27S QUESTION: " ++ question ++ "

Remember: Respond ONLY with valid JSON. No additional text before or after the JSON object."

/-- The `buildAgriculturalPrompt` function of `prompts/agricultural.js`
(`none` models the TypeError thrown when `crops` is a truthy non-array). -/
def buildAgriculturalPrompt (farmProfile : Json) (language question : String) :
    Option String :=
  match cropsField farmProfile with
  | none => none
  | some crops =>
    some (renderPrompt crops (locField farmProfile "village")
      (locField farmProfile "district") (locField farmProfile "state")
      (simpleField farmProfile "soilType") (simpleField farmProfile "irrigationType")
      (areaField farmProfile) (simpleField farmProfile "season")
      (langNameOf language) question)

/-- An `HttpsError` surfaced to the caller of a callable function. -/
structure HttpsError where
  code : String
  message : String

/-- Trimmed farm-profile snapshot stored in a ChatRecord
(`crops || []`, `location || ` empty object, `soilType || ""`). -/
structure FarmSnapshot where
  crops : Json
  location : Json
  soilType : Json

/-- JS `a || b` on a possibly-`undefined` left operand. -/
def jsOr (v : Option Json) (d : Json) : Json :=
  if jsTruthy v then v.getD d else d

/-- The chat document written by `askGemini` (the server-side timestamp
sentinel is not modelled). -/
structure ChatRecord where
  question : String
  answer : Json
  confidence : String
  sources : List Json
  suggestions : List Json
  language : String
  farmProfile : FarmSnapshot

/-- Text-to-Speech voice parameters. -/
structure VoiceConf where
  languageCode : String
  voiceName : String
  ssmlGender : String

/-- External calls a handler can perform, in order. -/
inductive Effect where
  | modelCall (prompt : String)
  | persistWrite (docId : String) (record : ChatRecord)
  | blobExists (path : String)
  | blobSignedUrl (path : String)
  | speechRecognize (languageCode : String) (storageUri : String)
  | ttsSynthesize (voice : VoiceConf) (text : String)
  | blobSave (path : String)

/-- The ChatRecord writes in a trace, with their document identifiers. -/
def persistWrites : List Effect → List (String × ChatRecord)
  | [] => []
  | .persistWrite d r :: rest => (d, r) :: persistWrites rest
  | _ :: rest => persistWrites rest

/-- The Text-to-Speech voices used in a trace. -/
def ttsVoices : List Effect → List VoiceConf
  | [] => []
  | .ttsSynthesize v _ :: rest => v :: ttsVoices rest
  | _ :: rest => ttsVoices rest

/-- The Speech-to-Text locale codes used in a trace. -/
def recognizeLocales : List Effect → List String
  | [] => []
  | .speechRecognize l _ :: rest => l :: recognizeLocales rest
  | _ :: rest => recognizeLocales rest

/-- External-collaborator outcomes for one `askGemini` invocation. -/
structure AskEnv where
  apiKey : Option String
  modelResult : Except String String
  chatId : String
  persistResult : Except String Unit

/-- The `GEMINI_API_KEY` configuration check of `askGemini`: set, non-empty
and not the placeholder. -/
def apiKeyConfigured : Option String → Bool
  | none => false
  | some k => k != "" && k != "YOUR_GEMINI_API_KEY"

/-- Whether a value is truthy with `typeof` "object" (object, array; `null`
is excluded by truthiness first). -/
def isJsObjectLike : Option Json → Bool
  | some (.obj _) => true
  | some (.arr _) => true
  | _ => false

/-- Successful result of `askGemini`. -/
structure AskOk where
  answer : Json
  confidence : String
  sources : List Json
  suggestions : List Json
  chatId : String

/-- Values established by the effect-free head of `askGemini`: auth, input
validation, the configuration check and prompt construction, in source
order. -/
structure AskValidated where
  uid : String
  question : String
  language : String
  farmProfile : Json
  prompt : String

/-- Effect-free head of `askGemini` up to the model call. -/
def askGeminiValidate (env : AskEnv) (context : CallContext) (data : Json) :
    Except JsErr AskValidated :=
  match validateAuth context with
  | .error e => .error e
  | .ok uid =>
  match validateRequiredFields data ["question", "farmProfile", "language"] with
  | .error e => .error e
  | .ok _ =>
  match validateTextLength (jsGet (some data) "question") 1000 with
  | .error e => .error e
  | .ok question =>
  match validateLanguage (jsGet (some data) "language") with
  | .error e => .error e
  | .ok language =>
  let farmProfile := jsGet (some data) "farmProfile"
  if isJsObjectLike farmProfile = false then .error (.err "Invalid farm profile")
  else if apiKeyConfigured env.apiKey = false then
    .error (.err "Gemini API key not configured. Please set GEMINI_API_KEY in functions/.env")
  else
    match buildAgriculturalPrompt (farmProfile.getD .null) language question with
    | none => .error (.err "farmProfile.crops.join is not a function")
    | some prompt => .ok ⟨uid, question, language, farmProfile.getD .null, prompt⟩

/-- The ChatRecord assembled by `askGemini` before the Firestore write. -/
def mkChatRecord (v : AskValidated) (ai : AIResp) : ChatRecord :=
  { question := v.question
    answer := ai.answer
    confidence := ai.confidence
    sources := ai.sources
    suggestions := ai.suggestions
    language := v.language
    farmProfile :=
      ⟨jsOr (jsGet (some v.farmProfile) "crops") (.arr [])
      , jsOr (jsGet (some v.farmProfile) "location") (.obj [])
      , jsOr (jsGet (some v.farmProfile) "soilType") (.str "")⟩ }

/-- Body of the `try` block of `askGemini`, with its effect trace. -/
def askGeminiTry (env : AskEnv) (context : CallContext) (data : Json) :
    Except JsErr AskOk × List Effect :=
  match askGeminiValidate env context data with
  | .error e => (.error e, [])
  | .ok v =>
    match env.modelResult with
    | .error m => (.error (.err m), [.modelCall v.prompt])
    | .ok responseText =>
      match parseGeminiResponse responseText with
      | .error e => (.error e, [.modelCall v.prompt])
      | .ok ai =>
        let record := mkChatRecord v ai
        match env.persistResult with
        | .error m =>
          (.error (.err m), [.modelCall v.prompt, .persistWrite env.chatId record])
        | .ok _ =>
          (.ok ⟨ai.answer, ai.confidence, ai.sources, ai.suggestions, env.chatId⟩,
           [.modelCall v.prompt, .persistWrite env.chatId record])

/-- The catch block of `askGemini`: errors whose message mentions "API key"
become `failed-precondition` with a fixed message, everything else becomes
`internal` carrying the original message. -/
def wrapAskGeminiError (e : JsErr) : HttpsError :=
  if hasSub "API key" e.msg then
    ⟨"failed-precondition", "Gemini API key not configured. Please contact support."⟩
  else
    ⟨"internal", "Failed to get AI response: " ++ e.msg⟩

/-- The `askGemini` callable as seen by the caller. -/
def askGemini (env : AskEnv) (context : CallContext) (data : Json) :
    Except HttpsError AskOk × List Effect :=
  let r := askGeminiTry env context data
  (r.1.mapError wrapAskGeminiError, r.2)

/-- One recognition alternative returned by Speech-to-Text. -/
structure SpeechAlt where
  transcript : Option String
  confidence : Option ℚ

/-- One recognition result (segment) returned by Speech-to-Text. -/
structure SpeechResult where
  alternatives : List SpeechAlt

/-- A Speech-to-Text response (`results` may be absent). -/
structure SpeechResponse where
  results : Option (List SpeechResult)

/-- The per-segment score computed by `transcribeAudio`:
`result.alternatives[0]?.confidence || 0`. -/
def segScore (r : SpeechResult) : ℚ :=
  match r.alternatives.head? with
  | none => 0
  | some a =>
    match a.confidence with
    | none => 0
    | some c => c

/-- JS `Math.round(q * 100) / 100` (round half towards positive infinity). -/
def jsRound2 (q : ℚ) : ℚ :=
  ((⌊q * 100 + 1 / 2⌋ : ℤ) : ℚ) / 100

/-- The confidence computed by `transcribeAudio` from a non-empty results
list: non-positive per-segment scores are filtered out before averaging. -/
def transcribeConfidence (results : List SpeechResult) : ℚ :=
  let confidenceScores := (results.map segScore).filter (fun s => decide (0 < s))
  let avgConfidence : ℚ :=
    if 0 < confidenceScores.length then
      confidenceScores.sum / (confidenceScores.length : ℚ)
    else 0
  jsRound2 avgConfidence

/-- The transcript computed by `transcribeAudio`: first alternatives with a
truthy transcript, joined by spaces and trimmed. -/
def transcribeTranscript (results : List SpeechResult) : String :=
  let pieces := results.filterMap (fun r =>
    match r.alternatives.head? with
    | none => none
    | some a =>
      match a.transcript with
      | none => none
      | some t => if t = "" then none else some t)
  jsTrim (String.intercalate " " pieces)

/-- The `languageCodeMap` object of `transcribeAudio`. -/
def languageCodeMap : String → Option String
  | "en" => some "en-IN"
  | "hi" => some "hi-IN"
  | "ta" => some "ta-IN"
  | "te" => some "te-IN"
  | _ => none

/-- External-collaborator outcomes for one `transcribeAudio` invocation. -/
structure TransEnv where
  bucketName : String
  existsResult : Except String Bool
  urlResult : Except String String
  recognizeResult : Except String SpeechResponse

/-- Successful result of `transcribeAudio`. -/
structure TransOk where
  transcript : String
  confidence : ℚ
  message : Option String

/-- Values established by the effect-free head of `transcribeAudio`,
including the identity-namespace check on the audio path. -/
structure TransValidated where
  uid : String
  audioPath : String
  language : String

/-- Effect-free head of `transcribeAudio`: auth, input validation, and the
ownership check `audioPath.includes("audio/" + uid + "/")`. -/
def transcribeValidate (context : CallContext) (data : Json) :
    Except JsErr TransValidated :=
  match validateAuth context with
  | .error e => .error e
  | .ok uid =>
  match validateRequiredFields data ["audioPath", "language"] with
  | .error e => .error e
  | .ok _ =>
  match validateAudioPath (jsGet (some data) "audioPath") with
  | .error e => .error e
  | .ok audioPath =>
  match validateLanguage (jsGet (some data) "language") with
  | .error e => .error e
  | .ok language =>
  if hasSub ("audio/" ++ uid ++ "/") audioPath = false then
    .error (.err "Unauthorized: Cannot access audio file")
  else .ok ⟨uid, audioPath, language⟩

/-- Body of the `try` block of `transcribeAudio`, with its effect trace. -/
def transcribeAudioTry (env : TransEnv) (context : CallContext) (data : Json) :
    Except JsErr TransOk × List Effect :=
  match transcribeValidate context data with
  | .error e => (.error e, [])
  | .ok v =>
    match env.existsResult with
    | .error m => (.error (.err m), [.blobExists v.audioPath])
    | .ok false => (.error (.err "Audio file not found"), [.blobExists v.audioPath])
    | .ok true =>
      match env.urlResult with
      | .error m =>
        (.error (.err m), [.blobExists v.audioPath, .blobSignedUrl v.audioPath])
      | .ok _ =>
        let languageCode := (languageCodeMap v.language).getD "en-IN"
        let uri := "gs://" ++ env.bucketName ++ "/" ++ v.audioPath
        let effects := [Effect.blobExists v.audioPath, .blobSignedUrl v.audioPath,
          .speechRecognize languageCode uri]
        match env.recognizeResult with
        | .error m => (.error (.err m), effects)
        | .ok response =>
          match response.results with
          | none => (.ok ⟨"", 0, some "No speech detected in audio"⟩, effects)
          | some results =>
            if results.length = 0 then
              (.ok ⟨"", 0, some "No speech detected in audio"⟩, effects)
            else
              (.ok ⟨transcribeTranscript results, transcribeConfidence results, none⟩,
               effects)

/-- The catch block shared shape of `transcribeAudio` and
`synthesizeSpeech`: every error becomes `internal` with a fixed text before
the original message. -/
def wrapInternal (pre : String) (e : JsErr) : HttpsError :=
  ⟨"internal", pre ++ e.msg⟩

/-- The `transcribeAudio` callable as seen by the caller. -/
def transcribeAudio (env : TransEnv) (context : CallContext) (data : Json) :
    Except HttpsError TransOk × List Effect :=
  let r := transcribeAudioTry env context data
  (r.1.mapError (wrapInternal "Failed to transcribe audio: "), r.2)

/-- The `voiceConfig` object of `synthesizeSpeech`. -/
def voiceConfig : String → Option VoiceConf
  | "en" => some ⟨"en-IN", "en-IN-Wavenet-D", "FEMALE"⟩
  | "hi" => some ⟨"hi-IN", "hi-IN-Wavenet-D", "FEMALE"⟩
  | "ta" => some ⟨"ta-IN", "ta-IN-Wavenet-A", "FEMALE"⟩
  | "te" => some ⟨"te-IN", "te-IN-Standard-A", "FEMALE"⟩
  | _ => none

/-- External-collaborator outcomes for one `synthesizeSpeech` invocation
(`ttsResult` carries the audio bytes opaquely, `none` when the provider
returns no `audioContent`). -/
structure SynthEnv where
  ttsResult : Except String (Option String)
  now : Nat
  saveResult : Except String Unit
  urlResult : Except String String

/-- Successful result of `synthesizeSpeech`. -/
structure SynthOk where
  audioUrl : String
  storagePath : String

/-- Values established by the effect-free head of `synthesizeSpeech`. -/
structure SynthValidated where
  uid : String
  text : String
  language : String

/-- Effect-free head of `synthesizeSpeech`: auth and input validation. -/
def synthesizeValidate (context : CallContext) (data : Json) :
    Except JsErr SynthValidated :=
  match validateAuth context with
  | .error e => .error e
  | .ok uid =>
  match validateRequiredFields data ["text", "language"] with
  | .error e => .error e
  | .ok _ =>
  match validateTextLength (jsGet (some data) "text") 5000 with
  | .error e => .error e
  | .ok text =>
  match validateLanguage (jsGet (some data) "language") with
  | .error e => .error e
  | .ok language => .ok ⟨uid, text, language⟩

/-- Body of the `try` block of `synthesizeSpeech`, with its effect trace
(`voiceConfig[language] || voiceConfig.en`). -/
def synthesizeSpeechTry (env : SynthEnv) (context : CallContext) (data : Json) :
    Except JsErr SynthOk × List Effect :=
  match synthesizeValidate context data with
  | .error e => (.error e, [])
  | .ok v =>
    let voice := (voiceConfig v.language).getD ⟨"en-IN", "en-IN-Wavenet-D", "FEMALE"⟩
    match env.ttsResult with
    | .error m => (.error (.err m), [.ttsSynthesize voice v.text])
    | .ok none => (.error (.err "No audio content generated"), [.ttsSynthesize voice v.text])
    | .ok (some _) =>
      let fileName := "audio/" ++ v.uid ++ "/response-" ++ toString env.now ++ ".mp3"
      match env.saveResult with
      | .error m =>
        (.error (.err m), [.ttsSynthesize voice v.text, .blobSave fileName])
      | .ok _ =>
        match env.urlResult with
        | .error m =>
          (.error (.err m),
           [.ttsSynthesize voice v.text, .blobSave fileName, .blobSignedUrl fileName])
        | .ok url =>
          (.ok ⟨url, fileName⟩,
           [.ttsSynthesize voice v.text, .blobSave fileName, .blobSignedUrl fileName])

/-- The `synthesizeSpeech` callable as seen by the caller. -/
def synthesizeSpeech (env : SynthEnv) (context : CallContext) (data : Json) :
    Except HttpsError SynthOk × List Effect :=
  let r := synthesizeSpeechTry env context data
  (r.1.mapError (wrapInternal "Failed to synthesize speech: "), r.2)

/-- The message of the error thrown by `validateAuth` on a context without a
valid identity. -/
def authFailureMsg (context : CallContext) : String :=
  match context.auth with
  | none => "Unauthenticated: No auth token provided"
  | some _ => "Unauthenticated: Invalid auth token"

theorem validateAuth_of_invalid (context : CallContext)
    (h : hasValidIdentity context = false) :
    validateAuth context = .error (.err (authFailureMsg context)) := by
  cases hc : context.auth with
  | none => simp [validateAuth, authFailureMsg, hc]
  | some a =>
    have : a.uid = "" := by
      simpa [hasValidIdentity, hc, bne_iff_ne] using h
    simp [validateAuth, authFailureMsg, hc, this]

theorem validateTextLength_ok (s : String) (maxLength : Nat) (q : String)
    (h : validateTextLength (some (.str s)) maxLength = .ok q) :
    s ≠ "" ∧ s.length ≤ maxLength ∧ q = jsTrim s := by
  by_cases h0 : s = ""
  · simp [validateTextLength, h0] at h
  · by_cases h1 : s.length > maxLength
    · simp [validateTextLength, h0, h1] at h
    · refine ⟨h0, by omega, ?_⟩
      simpa [validateTextLength, h0, h1] using h.symm

theorem length_dropWhile_le {α : Type} (p : α → Bool) (l : List α) :
    (l.dropWhile p).length ≤ l.length := by
  induction l with
  | nil => simp [List.dropWhile]
  | cons a l ih =>
    by_cases h : p a
    · simp only [List.dropWhile, h]
      exact le_trans ih (by simp)
    · simp [List.dropWhile, h]

theorem jsTrim_length_le (s : String) : (jsTrim s).length ≤ s.length := by
  have h1 : ∀ (l : List Char), (l.dropWhile jsSpace).length ≤ l.length :=
    fun l => length_dropWhile_le jsSpace l
  calc (jsTrim s).length
      = (((s.toList.dropWhile jsSpace).reverse.dropWhile jsSpace).reverse).length := rfl
    _ = (((s.toList.dropWhile jsSpace).reverse.dropWhile jsSpace)).length := by
        rw [List.length_reverse]
    _ ≤ ((s.toList.dropWhile jsSpace).reverse).length := h1 _
    _ = (s.toList.dropWhile jsSpace).length := by rw [List.length_reverse]
    _ ≤ s.toList.length := h1 _
    _ = s.length := rfl

/-- Audio path of another user's namespace that embeds the caller's prefix. -/
def foreignNestedPath : String := "audio/attacker/audio/u123/rec.webm"

/-- Environment for the C3 runs (file-existence check reports absent, so the
run stops right after the storage access it should never have made). -/
def transEnvC3 : TransEnv := ⟨"bkt", .ok false, .ok "url", .ok ⟨none⟩⟩

/-- Request data carrying the foreign nested path. -/
def transDataC3 : Json :=
  .obj [("audioPath", .str foreignNestedPath), ("language", .str "en")]

/-- Request data carrying a plainly foreign path. -/
def transDataC3b : Json :=
  .obj [("audioPath", .str "audio/otherUser/rec.webm"), ("language", .str "en")]

/-- C3: the ownership check of `transcribeAudio` is
`audioPath.includes("audio/" + uid + "/")`, not a prefix check. A path under
another user's namespace that merely embeds `audio/u123/` as a substring
passes input validation and the ownership check, and the handler proceeds to
access the blob; so acceptance by the check does not imply the path lies
under `audio/u123/`. (The plainly foreign path of the specification's test is
still rejected before any blob access.) -/
theorem transcribeAudio_scope_check_code_bug :
    validateAudioPath (some (.str foreignNestedPath)) = .ok foreignNestedPath
    ∧ hasSub ("audio/" ++ "u123" ++ "/") foreignNestedPath = true
    ∧ strStartsWith ("audio/" ++ "u123" ++ "/") foreignNestedPath = false
    ∧ (transcribeAudioTry transEnvC3 ⟨some ⟨"u123"⟩⟩ transDataC3).2
        = [.blobExists foreignNestedPath]
    ∧ transcribeAudioTry transEnvC3 ⟨some ⟨"u123"⟩⟩ transDataC3b
        = (.error (.err "Unauthorized: Cannot access audio file"), []) :=
  ⟨rfl, rfl, rfl, rfl, rfl⟩

/-- C4 counterexample: on the empty raw reply (which contains no brace pair),
the parsing section of `askGemini` does not return the degraded response; the
fallback sets `answer` to the empty raw text, which the subsequent falsy-answer
check rejects, so the parser raises. -/
theorem parse_empty_reply_raises_cex :
    extractParse "" = none
    ∧ parseGeminiResponse "" = .error (.err "Invalid AI response: missing answer field") :=
  ⟨rfl, rfl⟩

/-- C4 (amended): for every non-empty raw reply with no brace pair or whose
extracted brace span fails to parse as JSON, the parser returns the degraded
response with the whole raw text as answer, default confidence "Medium",
sources `["Gemini AI"]` and no suggestions, without raising. -/
theorem parse_fallback_degrades (raw : String) (hraw : raw ≠ "")
    (hx : extractParse raw = none) :
    parseGeminiResponse raw = .ok ⟨.str raw, "Medium", [.str "Gemini AI"], []⟩ := by
  have hne : (raw != "") = true := by simpa [bne_iff_ne] using hraw
  unfold parseGeminiResponse
  rw [hx]
  show (if (raw != "") = false then _ else _) = _
  rw [hne]
  rfl

/-- C4 witness: the specification's brace-free sample reply degrades as
stated. -/
theorem parse_fallback_degrades_witness :
    parseGeminiResponse "I recommend crop rotation." =
      .ok ⟨.str "I recommend crop rotation.", "Medium", [.str "Gemini AI"], []⟩ :=
  parse_fallback_degrades "I recommend crop rotation." (by decide) rfl

theorem parseGeminiResponse_of_extract (raw : String) (j : Json)
    (hxp : extractParse raw = some j) :
    parseGeminiResponse raw =
      (if jsTruthy (jsGet (some j) "answer") = false then
        .error (.err "Invalid AI response: missing answer field")
      else .ok ⟨(jsGet (some j) "answer").getD .null,
        (match jsGet (some j) "confidence" with
         | some (.str s) => if validConfidenceLevels.contains s then s else "Medium"
         | _ => "Medium"),
        (match jsGet (some j) "sources" with
         | some (.arr xs) => xs
         | _ => [.str "Gemini AI"]),
        (match jsGet (some j) "suggestions" with
         | some (.arr xs) => xs
         | _ => [])⟩) := by
  unfold parseGeminiResponse
  rw [hxp]

/-- C5: when the extracted brace span does parse as JSON, the parser fails
exactly when the `answer` field of the parsed object is missing or falsy, and
the missing-answer error is the only error the parsing section can raise. -/
theorem parse_missing_answer_iff (raw s : String) (j : Json)
    (hx : extractBraces raw = some s) (hp : Json.parse s = some j) :
    (parseGeminiResponse raw = .error (.err "Invalid AI response: missing answer field")
      ↔ jsTruthy (jsGet (some j) "answer") = false)
    ∧ (∀ e, parseGeminiResponse raw = .error e →
        e = .err "Invalid AI response: missing answer field") := by
  have hxp : extractParse raw = some j := by
    simp [extractParse, hx, hp]
  have heq := parseGeminiResponse_of_extract raw j hxp
  constructor
  · constructor
    · intro h
      cases h2 : jsTruthy (jsGet (some j) "answer") with
      | false => rfl
      | true =>
        rw [heq, h2] at h
        simp at h
    · intro h
      rw [heq, h]
      simp
  · intro e h
    cases h2 : jsTruthy (jsGet (some j) "answer") with
    | true =>
      rw [heq, h2] at h
      simp at h
    | false =>
      rw [heq, h2] at h
      simp at h
      exact h.symm

/-- C5 witness: the specification's no-answer sample raises the
missing-answer error. -/
theorem parse_missing_answer_iff_witness :
    parseGeminiResponse "\x7b\"confidence\":\"High\"\x7d" =
      .error (.err "Invalid AI response: missing answer field") :=
  (parse_missing_answer_iff "\x7b\"confidence\":\"High\"\x7d"
    "\x7b\"confidence\":\"High\"\x7d" (.obj [("confidence", .str "High")])
    rfl rfl).1.mpr rfl

theorem parseGeminiResponse_of_fallbackPath (raw : String)
    (hx : extractParse raw = none) :
    parseGeminiResponse raw =
      (if (raw != "") = false then
        .error (.err "Invalid AI response: missing answer field")
      else .ok ⟨.str raw, "Medium", [.str "Gemini AI"], []⟩) := by
  unfold parseGeminiResponse
  rw [hx]
  rfl

theorem parse_ok_confidence (raw : String) (ai : AIResp)
    (h : parseGeminiResponse raw = .ok ai) :
    validConfidenceLevels.contains ai.confidence = true := by
  cases hx : extractParse raw with
  | none =>
    rw [parseGeminiResponse_of_fallbackPath raw hx] at h
    cases hr : (raw != "") with
    | false => rw [hr] at h; simp at h
    | true =>
      rw [hr] at h
      simp only [Bool.true_eq_false, if_false, Except.ok.injEq] at h
      rw [← h]
      rfl
  | some j =>
    rw [parseGeminiResponse_of_extract raw j hx] at h
    cases ht : jsTruthy (jsGet (some j) "answer") with
    | false => rw [ht] at h; simp at h
    | true =>
      rw [ht] at h
      simp only [Bool.true_eq_false, if_false, Except.ok.injEq] at h
      rw [← h]
      cases hc : jsGet (some j) "confidence" with
      | none => rfl
      | some c =>
        cases c with
        | str s =>
          have hgoal : validConfidenceLevels.contains
              (if validConfidenceLevels.contains s = true then s else "Medium") = true := by
            by_cases hs : validConfidenceLevels.contains s = true
            · rw [if_pos hs]
              exact hs
            · rw [if_neg hs]
              rfl
          exact hgoal
        | null => rfl
        | bool b => rfl
        | num m e => rfl
        | arr xs => rfl
        | obj kvs => rfl

theorem validateTextLength_ok_inv (t : Option Json) (n : Nat) (q : String)
    (h : validateTextLength t n = .ok q) :
    ∃ s, t = some (.str s) ∧ s ≠ "" ∧ s.length ≤ n ∧ q = jsTrim s := by
  cases t with
  | none => simp [validateTextLength] at h
  | some j =>
    cases j with
    | str s =>
      obtain ⟨h1, h2, h3⟩ := validateTextLength_ok s n q h
      exact ⟨s, rfl, h1, h2, h3⟩
    | null => simp [validateTextLength] at h
    | bool b => simp [validateTextLength] at h
    | num m e => simp [validateTextLength] at h
    | arr xs => simp [validateTextLength] at h
    | obj kvs => simp [validateTextLength] at h

theorem askGemini_ok_inv (env : AskEnv) (ctx : CallContext) (data : Json)
    (out : AskOk) (effs : List Effect)
    (h : askGemini env ctx data = (.ok out, effs)) :
    ∃ v text ai, askGeminiValidate env ctx data = .ok v
      ∧ env.modelResult = .ok text
      ∧ parseGeminiResponse text = .ok ai
      ∧ env.persistResult = .ok ()
      ∧ out = ⟨ai.answer, ai.confidence, ai.sources, ai.suggestions, env.chatId⟩
      ∧ effs = [.modelCall v.prompt, .persistWrite env.chatId (mkChatRecord v ai)] := by
  cases hval : askGeminiValidate env ctx data with
  | error e =>
    have heq : askGemini env ctx data = (.error (wrapAskGeminiError e), []) := by
      simp only [askGemini, askGeminiTry, hval, Except.mapError]
    rw [heq] at h
    simp at h
  | ok v =>
    cases hm : env.modelResult with
    | error m =>
      have heq : askGemini env ctx data =
          (.error (wrapAskGeminiError (.err m)), [.modelCall v.prompt]) := by
        simp only [askGemini, askGeminiTry, hval, hm, Except.mapError]
      rw [heq] at h
      simp at h
    | ok text =>
      cases hp : parseGeminiResponse text with
      | error e2 =>
        have heq : askGemini env ctx data =
            (.error (wrapAskGeminiError e2), [.modelCall v.prompt]) := by
          simp only [askGemini, askGeminiTry, hval, hm, hp, Except.mapError]
        rw [heq] at h
        simp at h
      | ok ai =>
        cases hw : env.persistResult with
        | error m =>
          have heq : askGemini env ctx data =
              (.error (wrapAskGeminiError (.err m)),
               [.modelCall v.prompt, .persistWrite env.chatId (mkChatRecord v ai)]) := by
            simp only [askGemini, askGeminiTry, hval, hm, hp, hw, Except.mapError]
          rw [heq] at h
          simp at h
        | ok u =>
          cases u
          have heq : askGemini env ctx data =
              (.ok ⟨ai.answer, ai.confidence, ai.sources, ai.suggestions, env.chatId⟩,
               [.modelCall v.prompt, .persistWrite env.chatId (mkChatRecord v ai)]) := by
            simp only [askGemini, askGeminiTry, hval, hm, hp, hw, Except.mapError]
          rw [heq] at h
          simp only [Prod.mk.injEq, Except.ok.injEq] at h
          exact ⟨v, text, ai, rfl, rfl, hp, rfl, h.1.symm, h.2.symm⟩

/-- C1 counterexample: the claim asserts all four fields of the returned
AIResponse are type-correct, but the handler never checks that `answer` is a
string; a model reply whose JSON carries the number 42 as `answer` flows to
the caller unchanged, so the returned `answer` is not a string. -/
theorem askGemini_nonstring_answer_cex :
    (askGemini ⟨some "key", .ok "\x7b\"answer\": 42\x7d", "chat1", .ok ()⟩ ⟨some ⟨"u1"⟩⟩
      (.obj [("question", .str "How?"), ("farmProfile", .obj []), ("language", .str "en")])).1
      = .ok ⟨.num 42 0, "Medium", [.str "Gemini AI"], [], "chat1"⟩
    ∧ Json.isStr (.num 42 0) = false :=
  ⟨rfl, rfl⟩

/-- C1 (amended): all four fields are always present in the value returned to
the caller, and `confidence`, `sources`, `suggestions` are normalized exactly
as claimed (confidence kept only when the parsed value is exactly one of the
three levels, else "Medium"; sources/suggestions kept only when arrays, else
`["Gemini AI"]` / `[]`); the returned `confidence` is always one of the three
levels. The `answer` field, however, is only guaranteed present and truthy,
not string-typed. -/
theorem askGemini_normalizes_response :
    (∀ raw j ai, extractParse raw = some j → parseGeminiResponse raw = .ok ai →
      jsTruthy (jsGet (some j) "answer") = true
      ∧ ai.answer = (jsGet (some j) "answer").getD .null
      ∧ (∀ s, jsGet (some j) "confidence" = some (.str s) →
          ai.confidence = (if validConfidenceLevels.contains s then s else "Medium"))
      ∧ ((∀ s, jsGet (some j) "confidence" ≠ some (.str s)) → ai.confidence = "Medium")
      ∧ (∀ xs, jsGet (some j) "sources" = some (.arr xs) → ai.sources = xs)
      ∧ ((∀ xs, jsGet (some j) "sources" ≠ some (.arr xs)) → ai.sources = [.str "Gemini AI"])
      ∧ (∀ xs, jsGet (some j) "suggestions" = some (.arr xs) → ai.suggestions = xs)
      ∧ ((∀ xs, jsGet (some j) "suggestions" ≠ some (.arr xs)) → ai.suggestions = []))
    ∧ (∀ env ctx data out effs, askGemini env ctx data = (.ok out, effs) →
        validConfidenceLevels.contains out.confidence = true) := by
  constructor
  · intro raw j ai hx hok
    rw [parseGeminiResponse_of_extract raw j hx] at hok
    cases ht : jsTruthy (jsGet (some j) "answer") with
    | false =>
      rw [ht] at hok
      simp at hok
    | true =>
      rw [ht] at hok
      simp only [Bool.true_eq_false, if_false, Except.ok.injEq] at hok
      subst hok
      refine ⟨rfl, rfl, ?_, ?_, ?_, ?_, ?_, ?_⟩
      · intro s hs
        simp only [hs]
      · intro hns
        cases hc : jsGet (some j) "confidence" with
        | none => rfl
        | some c =>
          cases c with
          | str s => exact absurd hc (hns s)
          | null => rfl
          | bool b => rfl
          | num m e => rfl
          | arr xs => rfl
          | obj kvs => rfl
      · intro xs hs
        simp only [hs]
      · intro hns
        cases hc : jsGet (some j) "sources" with
        | none => rfl
        | some c =>
          cases c with
          | arr xs => exact absurd hc (hns xs)
          | null => rfl
          | bool b => rfl
          | num m e => rfl
          | str s => rfl
          | obj kvs => rfl
      · intro xs hs
        simp only [hs]
      · intro hns
        cases hc : jsGet (some j) "suggestions" with
        | none => rfl
        | some c =>
          cases c with
          | arr xs => exact absurd hc (hns xs)
          | null => rfl
          | bool b => rfl
          | num m e => rfl
          | str s => rfl
          | obj kvs => rfl
  · intro env ctx data out effs h
    obtain ⟨v, text, ai, _, _, hp, _, hout, _⟩ := askGemini_ok_inv env ctx data out effs h
    rw [hout]
    exact parse_ok_confidence text ai hp

/-- Sample raw reply from the specification's test list (prose followed by a
well-formed JSON object). -/
def sampleReplyRaw : String :=
  "Sure! \x7b\"answer\":\"Use urea 46-0-0.\",\"confidence\":\"High\",\"sources\":[\"ICAR\"],\"suggestions\":[\"Test soil first\"]\x7d"

/-- Parsed object embedded in `sampleReplyRaw`. -/
def sampleReplyJson : Json :=
  .obj [("answer", .str "Use urea 46-0-0."), ("confidence", .str "High"),
        ("sources", .arr [.str "ICAR"]), ("suggestions", .arr [.str "Test soil first"])]

/-- Normalized response for `sampleReplyRaw`. -/
def sampleReplyResp : AIResp :=
  ⟨.str "Use urea 46-0-0.", "High", [.str "ICAR"], [.str "Test soil first"]⟩

/-- C1 witness: on the specification's sample reply the embedded object is
extracted and returned unchanged. -/
theorem askGemini_normalizes_response_witness :
    sampleReplyResp.confidence = "High" ∧ sampleReplyResp.sources = [.str "ICAR"] := by
  have h := (askGemini_normalizes_response).1 sampleReplyRaw sampleReplyJson sampleReplyResp
    rfl rfl
  exact ⟨h.2.2.1 "High" rfl, h.2.2.2.2.1 [.str "ICAR"] rfl⟩

/-- C2 counterexample: an unauthenticated `askGemini` call surfaces with the
error kind "internal" — the same externally visible kind as a provider
failure on an authenticated call — so the authentication failure is not a
distinct error kind. -/
theorem askGemini_unauth_kind_cex :
    (askGemini ⟨some "key", .ok "x", "chat1", .ok ()⟩ ⟨none⟩ (.obj [])).1
      = .error ⟨"internal", "Failed to get AI response: Unauthenticated: No auth token provided"⟩
    ∧ (askGemini ⟨some "key", .error "network timeout", "chat1", .ok ()⟩ ⟨some ⟨"u1"⟩⟩
        (.obj [("question", .str "How?"), ("farmProfile", .obj []), ("language", .str "en")])).1
      = .error ⟨"internal", "Failed to get AI response: network timeout"⟩ :=
  ⟨rfl, rfl⟩

/-- C2 (amended): a call to any of the three handlers without a valid
authenticated identity fails before any input validation, external provider
call, or persistence write — the result carries the Unauthenticated message
regardless of the request data and environment, and the effect trace is
empty — but the failure is surfaced with the generic "internal" error kind
(the same kind as internal failures), not a distinct one; only configuration
failures get a distinct kind in `askGemini`. -/
theorem unauthenticated_fails_first (envA : AskEnv) (envT : TransEnv) (envS : SynthEnv)
    (ctx : CallContext) (data : Json) (h : hasValidIdentity ctx = false) :
    askGemini envA ctx data =
      (.error ⟨"internal", "Failed to get AI response: " ++ authFailureMsg ctx⟩, [])
    ∧ transcribeAudio envT ctx data =
      (.error ⟨"internal", "Failed to transcribe audio: " ++ authFailureMsg ctx⟩, [])
    ∧ synthesizeSpeech envS ctx data =
      (.error ⟨"internal", "Failed to synthesize speech: " ++ authFailureMsg ctx⟩, []) := by
  have hv := validateAuth_of_invalid ctx h
  have hsub : hasSub "API key" (authFailureMsg ctx) = false := by
    obtain ⟨auth⟩ := ctx
    cases auth with
    | none => rfl
    | some a => rfl
  refine ⟨?_, ?_, ?_⟩
  · have h1 : askGeminiValidate envA ctx data = .error (.err (authFailureMsg ctx)) := by
      simp only [askGeminiValidate, hv]
    have h2 : askGemini envA ctx data =
        (.error (wrapAskGeminiError (.err (authFailureMsg ctx))), []) := by
      simp only [askGemini, askGeminiTry, h1, Except.mapError]
    rw [h2]
    have h3 : wrapAskGeminiError (.err (authFailureMsg ctx)) =
        ⟨"internal", "Failed to get AI response: " ++ authFailureMsg ctx⟩ := by
      unfold wrapAskGeminiError
      rw [if_neg]
      · rfl
      · simp [JsErr.msg, hsub]
    rw [h3]
  · have h1 : transcribeValidate ctx data = .error (.err (authFailureMsg ctx)) := by
      simp only [transcribeValidate, hv]
    simp only [transcribeAudio, transcribeAudioTry, h1, Except.mapError, wrapInternal]
    rfl
  · have h1 : synthesizeValidate ctx data = .error (.err (authFailureMsg ctx)) := by
      simp only [synthesizeValidate, hv]
    simp only [synthesizeSpeech, synthesizeSpeechTry, h1, Except.mapError, wrapInternal]
    rfl

/-- C2 witness: a concrete unauthenticated `askGemini` call fails with the
internal-kind Unauthenticated error and an empty effect trace. -/
theorem unauthenticated_fails_first_witness :
    askGemini ⟨some "key", .ok "x", "c", .ok ()⟩ ⟨none⟩ (.obj []) =
      (.error ⟨"internal",
        "Failed to get AI response: Unauthenticated: No auth token provided"⟩, []) :=
  (unauthenticated_fails_first ⟨some "key", .ok "x", "c", .ok ()⟩
    ⟨"b", .ok true, .ok "u", .ok ⟨none⟩⟩ ⟨.ok (some "x"), 0, .ok (), .ok "u"⟩
    ⟨none⟩ (.obj []) rfl).1

/-- C6 counterexample: a persistence failure whose message happens to contain
"API key" is caught by the string-matching error dispatch and surfaced as the
fixed configuration error, which does not carry the underlying message. -/
theorem askGemini_persist_error_message_cex :
    (askGemini ⟨some "key", .ok "\x7b\"answer\":\"ok\"\x7d", "chat1",
        .error "API keys store unavailable"⟩ ⟨some ⟨"u1"⟩⟩
      (.obj [("question", .str "How?"), ("farmProfile", .obj []), ("language", .str "en")])).1
      = .error ⟨"failed-precondition", "Gemini API key not configured. Please contact support."⟩
    ∧ hasSub "API keys store unavailable"
        "Gemini API key not configured. Please contact support." = false :=
  ⟨rfl, rfl⟩

/-- C6 (amended): a successful `askGemini` call creates exactly one
ChatRecord whose generated identifier is returned as `chatId`, and success
implies that the persistence write succeeded; when the attempted write fails,
the whole request fails, carrying the underlying message whenever that
message does not contain "API key" (when it does, the catch block
misclassifies it as the fixed configuration error). -/
theorem askGemini_persistence_contract (env : AskEnv) (ctx : CallContext) (data : Json) :
    (∀ out effs, askGemini env ctx data = (.ok out, effs) →
      env.persistResult = .ok ()
      ∧ (persistWrites effs).map Prod.fst = [env.chatId]
      ∧ out.chatId = env.chatId)
    ∧ (∀ m res effs, env.persistResult = .error m →
        askGemini env ctx data = (res, effs) → persistWrites effs ≠ [] →
        res = .error (wrapAskGeminiError (.err m))
        ∧ (hasSub "API key" m = false →
            res = .error ⟨"internal", "Failed to get AI response: " ++ m⟩)) := by
  constructor
  · intro out effs h
    obtain ⟨v, text, ai, _, _, _, hw, hout, heffs⟩ := askGemini_ok_inv env ctx data out effs h
    refine ⟨hw, ?_, ?_⟩
    · rw [heffs]
      rfl
    · rw [hout]
  · intro m res effs hpr h hne
    cases hval : askGeminiValidate env ctx data with
    | error e =>
      have heq : askGemini env ctx data = (.error (wrapAskGeminiError e), []) := by
        simp only [askGemini, askGeminiTry, hval, Except.mapError]
      rw [heq] at h
      obtain ⟨h1, h2⟩ := Prod.mk.injEq .. ▸ h
      exact absurd (by rw [← h2]; rfl) hne
    | ok v =>
      cases hm : env.modelResult with
      | error m2 =>
        have heq : askGemini env ctx data =
            (.error (wrapAskGeminiError (.err m2)), [.modelCall v.prompt]) := by
          simp only [askGemini, askGeminiTry, hval, hm, Except.mapError]
        rw [heq] at h
        obtain ⟨h1, h2⟩ := Prod.mk.injEq .. ▸ h
        exact absurd (by rw [← h2]; rfl) hne
      | ok text =>
        cases hp : parseGeminiResponse text with
        | error e2 =>
          have heq : askGemini env ctx data =
              (.error (wrapAskGeminiError e2), [.modelCall v.prompt]) := by
            simp only [askGemini, askGeminiTry, hval, hm, hp, Except.mapError]
          rw [heq] at h
          obtain ⟨h1, h2⟩ := Prod.mk.injEq .. ▸ h
          exact absurd (by rw [← h2]; rfl) hne
        | ok ai =>
          have heq : askGemini env ctx data =
              (.error (wrapAskGeminiError (.err m)),
               [.modelCall v.prompt, .persistWrite env.chatId (mkChatRecord v ai)]) := by
            simp only [askGemini, askGeminiTry, hval, hm, hp, hpr, Except.mapError]
          rw [heq] at h
          obtain ⟨h1, h2⟩ := Prod.mk.injEq .. ▸ h
          refine ⟨h1.symm, fun hsub => ?_⟩
          rw [← h1]
          unfold wrapAskGeminiError
          rw [if_neg]
          · rfl
          · simp [JsErr.msg, hsub]

/-- C6 witness: on a concrete successful call, exactly one ChatRecord is
written and its document identifier is the returned chatId. -/
theorem askGemini_persistence_contract_witness :
    (persistWrites (askGemini ⟨some "key", .ok "\x7b\"answer\":\"ok\"\x7d", "chat1", .ok ()⟩
      ⟨some ⟨"u1"⟩⟩ (.obj [("question", .str "How?"), ("farmProfile", .obj []),
        ("language", .str "en")])).2).map Prod.fst = ["chat1"] :=
  ((askGemini_persistence_contract ⟨some "key", .ok "\x7b\"answer\":\"ok\"\x7d", "chat1", .ok ()⟩
    ⟨some ⟨"u1"⟩⟩ (.obj [("question", .str "How?"), ("farmProfile", .obj []),
      ("language", .str "en")])).1 _ _ rfl).2.1

theorem askGeminiValidate_ok_question (env : AskEnv) (ctx : CallContext) (data : Json)
    (v : AskValidated) (h : askGeminiValidate env ctx data = .ok v) :
    ∃ s, jsGet (some data) "question" = some (.str s) ∧ s ≠ ""
      ∧ s.length ≤ 1000 ∧ v.question = jsTrim s := by
  cases h1 : validateAuth ctx with
  | error e => simp [askGeminiValidate, h1] at h
  | ok uid =>
  cases h2 : validateRequiredFields data ["question", "farmProfile", "language"] with
  | error e => simp [askGeminiValidate, h1, h2] at h
  | ok u =>
  cases h3 : validateTextLength (jsGet (some data) "question") 1000 with
  | error e => simp [askGeminiValidate, h1, h2, h3] at h
  | ok question =>
  cases h4 : validateLanguage (jsGet (some data) "language") with
  | error e => simp [askGeminiValidate, h1, h2, h3, h4] at h
  | ok language =>
  obtain ⟨s, hs1, hs2, hs3, hs4⟩ :=
    validateTextLength_ok_inv (jsGet (some data) "question") 1000 question h3
  cases h5 : isJsObjectLike (jsGet (some data) "farmProfile") with
  | false => simp [askGeminiValidate, h1, h2, h3, h4, h5] at h
  | true =>
  cases h6 : apiKeyConfigured env.apiKey with
  | false => simp [askGeminiValidate, h1, h2, h3, h4, h5, h6] at h
  | true =>
  cases h7 : buildAgriculturalPrompt ((jsGet (some data) "farmProfile").getD .null)
      language question with
  | none => simp [askGeminiValidate, h1, h2, h3, h4, h5, h6, h7] at h
  | some prompt =>
    have heq : askGeminiValidate env ctx data =
        .ok ⟨uid, question, language, (jsGet (some data) "farmProfile").getD .null, prompt⟩ := by
      simp [askGeminiValidate, h1, h2, h3, h4, h5, h6, h7]
    rw [heq] at h
    injection h with h
    exact ⟨s, hs1, hs2, hs3, by rw [← h, hs4]⟩

/-- C7 counterexample: the whitespace-only question " " passes required-field
and length validation, but the value used downstream and persisted in the
ChatRecord is its trim — the empty string — so the persisted question is not
non-empty. -/
theorem askGemini_whitespace_question_cex :
    (askGemini ⟨some "key", .ok "\x7b\"answer\":\"ok\"\x7d", "chat1", .ok ()⟩ ⟨some ⟨"u1"⟩⟩
      (.obj [("question", .str " "), ("farmProfile", .obj []), ("language", .str "en")])).1
      = .ok ⟨.str "ok", "Medium", [.str "Gemini AI"], [], "chat1"⟩
    ∧ (persistWrites (askGemini ⟨some "key", .ok "\x7b\"answer\":\"ok\"\x7d", "chat1", .ok ()⟩
        ⟨some ⟨"u1"⟩⟩ (.obj [("question", .str " "), ("farmProfile", .obj []),
          ("language", .str "en")])).2).map (fun p => p.2.question) = [""] :=
  ⟨rfl, rfl⟩

/-- C7 (amended): an accepted question is a non-empty string whose pre-trim
length is at most 1000; the value used for the prompt and persisted in the
ChatRecord is its trim, which also has length at most 1000 but may be empty
(for whitespace-only input). `validateTextLength` rejects 1001 characters
with the too-long error and accepts 1000 characters, returning the trimmed
text. -/
theorem askGemini_question_validation :
    (∀ (s : String) (maxLen : Nat) (q : String),
      validateTextLength (some (.str s)) maxLen = .ok q →
      s ≠ "" ∧ s.length ≤ maxLen ∧ q = jsTrim s ∧ q.length ≤ maxLen)
    ∧ (∀ env ctx data out effs, askGemini env ctx data = (.ok out, effs) →
        ∃ s, jsGet (some data) "question" = some (.str s) ∧ s ≠ "" ∧ s.length ≤ 1000
          ∧ (persistWrites effs).map (fun p => p.2.question) = [jsTrim s]
          ∧ (jsTrim s).length ≤ 1000)
    ∧ validateTextLength (some (.str (String.mk (List.replicate 1001 'x')))) 1000
        = .error (.err "Text too long. Maximum length: 1000 characters")
    ∧ validateTextLength (some (.str (String.mk (List.replicate 1000 'x')))) 1000
        = .ok (String.mk (List.replicate 1000 'x')) := by
  have hdropx : ∀ n : Nat, (List.replicate n 'x').dropWhile jsSpace = List.replicate n 'x' := by
    intro n
    cases n with
    | zero => rfl
    | succ k =>
      rw [List.replicate_succ, List.dropWhile_cons]
      simp [jsSpace]
  have htrimx : ∀ n : Nat, jsTrim (String.mk (List.replicate n 'x'))
      = String.mk (List.replicate n 'x') := by
    intro n
    unfold jsTrim
    simp only [String.toList]
    rw [hdropx, List.reverse_replicate, hdropx, List.reverse_replicate]
  have hlen : ∀ n : Nat, (String.mk (List.replicate n 'x')).length = n := by
    intro n
    show (List.replicate n 'x').length = n
    exact List.length_replicate n 'x'
  have hnex : ∀ n : Nat, 0 < n → String.mk (List.replicate n 'x') ≠ "" := by
    intro n hn hcontra
    have := congrArg String.length hcontra
    rw [hlen] at this
    simp [String.length] at this
    omega
  refine ⟨?_, ?_, ?_, ?_⟩
  · intro s maxLen q h
    obtain ⟨h1, h2, h3⟩ := validateTextLength_ok s maxLen q h
    exact ⟨h1, h2, h3, by rw [h3]; exact le_trans (jsTrim_length_le s) h2⟩
  · intro env ctx data out effs h
    obtain ⟨v, text, ai, hval, hm, hp, hw, hout, heffs⟩ :=
      askGemini_ok_inv env ctx data out effs h
    obtain ⟨s, hs1, hs2, hs3, hs4⟩ := askGeminiValidate_ok_question env ctx data v hval
    refine ⟨s, hs1, hs2, hs3, ?_, le_trans (jsTrim_length_le s) hs3⟩
    rw [heffs]
    show [(mkChatRecord v ai).question] = [jsTrim s]
    rw [show (mkChatRecord v ai).question = v.question from rfl, hs4]
  · have hne := hnex 1001 (by omega)
    have hstr : validateTextLength (some (.str (String.mk (List.replicate 1001 'x')))) 1000 =
        (if String.mk (List.replicate 1001 'x') = "" then .error (.err "Invalid text input")
         else if (String.mk (List.replicate 1001 'x')).length > 1000 then
           .error (.err ("Text too long. Maximum length: " ++ toString 1000 ++ " characters"))
         else .ok (jsTrim (String.mk (List.replicate 1001 'x')))) := rfl
    rw [hstr, if_neg hne, if_pos (by rw [hlen 1001]; omega)]
    rfl
  · have hne := hnex 1000 (by omega)
    have hstr : validateTextLength (some (.str (String.mk (List.replicate 1000 'x')))) 1000 =
        (if String.mk (List.replicate 1000 'x') = "" then .error (.err "Invalid text input")
         else if (String.mk (List.replicate 1000 'x')).length > 1000 then
           .error (.err ("Text too long. Maximum length: " ++ toString 1000 ++ " characters"))
         else .ok (jsTrim (String.mk (List.replicate 1000 'x')))) := rfl
    rw [hstr, if_neg hne, if_neg (by rw [hlen 1000]; omega), htrimx 1000]

/-- C7 witness: a concrete accepted question is non-empty, within the cap,
and its validated value is the trimmed text. -/
theorem askGemini_question_validation_witness :
    (" hi " : String) ≠ "" ∧ (" hi " : String).length ≤ 1000
      ∧ "hi" = jsTrim " hi " ∧ ("hi" : String).length ≤ 1000 :=
  askGemini_question_validation.1 " hi " 1000 "hi" rfl

theorem jsRound2_nonneg (q : ℚ) (h : 0 ≤ q) : 0 ≤ jsRound2 q := by
  unfold jsRound2
  apply div_nonneg _ (by norm_num)
  have : (0 : ℤ) ≤ ⌊q * 100 + 1 / 2⌋ := Int.floor_nonneg.mpr (by linarith)
  exact_mod_cast this

theorem jsRound2_le_one (q : ℚ) (h : q ≤ 1) : jsRound2 q ≤ 1 := by
  unfold jsRound2
  rw [div_le_one (by norm_num)]
  have : ⌊q * 100 + 1 / 2⌋ < (101 : ℤ) := Int.floor_lt.mpr (by push_cast; linarith)
  have h2 : ⌊q * 100 + 1 / 2⌋ ≤ (100 : ℤ) := by omega
  exact_mod_cast h2

/-- Modelled from the claim's words, for comparison with the code: the
arithmetic mean of the per-segment confidence scores over all segments (0
when there are no segments), rounded to 2 decimal places. -/
def claimConfidenceAllSegments (results : List SpeechResult) : ℚ :=
  jsRound2 (if results.length = 0 then 0
            else (results.map segScore).sum / (results.length : ℚ))

/-- Two-segment recognizer response in which the second segment has
confidence zero. -/
def respC8 : List SpeechResult :=
  [⟨[⟨some "hello", some (3/5)⟩]⟩, ⟨[⟨some "there", some 0⟩]⟩]

/-- C8 counterexample: with segments of confidence 0.6 and 0, the handler
filters the zero score out before averaging and returns 0.6, while the
arithmetic mean of the per-segment scores rounded to 2 decimals is 0.3. -/
theorem transcribe_confidence_not_all_mean_cex :
    (transcribeAudioTry ⟨"bkt", .ok true, .ok "u", .ok ⟨some respC8⟩⟩ ⟨some ⟨"u1"⟩⟩
        (.obj [("audioPath", .str "audio/u1/rec.webm"), ("language", .str "en")])).1
      = .ok ⟨transcribeTranscript respC8, transcribeConfidence respC8, none⟩
    ∧ transcribeConfidence respC8 = 3/5
    ∧ claimConfidenceAllSegments respC8 = 3/10
    ∧ (3/5 : ℚ) ≠ 3/10 := by
  refine ⟨rfl, ?_, ?_, by norm_num⟩
  · norm_num [transcribeConfidence, respC8, segScore, jsRound2, List.filter]
  · norm_num [claimConfidenceAllSegments, respC8, segScore, jsRound2]

/-- C8 (amended): the confidence is the mean of the positive per-segment
scores rounded to 2 decimals — segments whose score is missing or not
positive are excluded — so it coincides with the all-segment mean exactly
when every segment's score is positive; it lies in `[0, 1]` whenever the
per-segment scores do, it is 0 when no segment has a positive score, and a
recognizer response with no results (or an empty results list) yields
transcript "" and confidence 0 rather than failing. -/
theorem transcribe_confidence_contract :
    (∀ results : List SpeechResult, results ≠ [] → (∀ r ∈ results, 0 < segScore r) →
      transcribeConfidence results = claimConfidenceAllSegments results)
    ∧ (∀ results : List SpeechResult, (∀ r ∈ results, 0 ≤ segScore r ∧ segScore r ≤ 1) →
        0 ≤ transcribeConfidence results ∧ transcribeConfidence results ≤ 1)
    ∧ (∀ results : List SpeechResult, (∀ r ∈ results, segScore r ≤ 0) →
        transcribeConfidence results = 0)
    ∧ (∀ env ctx data out effs,
        (env.recognizeResult = .ok ⟨none⟩ ∨ env.recognizeResult = .ok ⟨some []⟩) →
        transcribeAudio env ctx data = (.ok out, effs) →
        out.transcript = "" ∧ out.confidence = 0) := by
  refine ⟨?_, ?_, ?_, ?_⟩
  · intro results hne hpos
    have hfil : (results.map segScore).filter (fun s => decide (0 < s))
        = results.map segScore := by
      rw [List.filter_eq_self]
      intro a ha
      obtain ⟨r, hr, rfl⟩ := List.mem_map.mp ha
      simpa using hpos r hr
    have hlen : results.length ≠ 0 := fun h0 => hne (List.length_eq_zero.mp h0)
    simp only [transcribeConfidence, claimConfidenceAllSegments, hfil, List.length_map]
    rw [if_pos (Nat.pos_of_ne_zero hlen), if_neg hlen]
  · intro results h
    have hmem : ∀ x ∈ (results.map segScore).filter (fun s => decide (0 < s)),
        0 ≤ x ∧ x ≤ 1 := by
      intro x hx
      have hx2 := List.mem_of_mem_filter hx
      obtain ⟨r, hr, rfl⟩ := List.mem_map.mp hx2
      exact h r hr
    simp only [transcribeConfidence]
    by_cases h0 : 0 < ((results.map segScore).filter (fun s => decide (0 < s))).length
    · rw [if_pos h0]
      have hsum0 : 0 ≤ ((results.map segScore).filter (fun s => decide (0 < s))).sum :=
        List.sum_nonneg (fun x hx => (hmem x hx).1)
      have hsum1 : ((results.map segScore).filter (fun s => decide (0 < s))).sum
          ≤ (((results.map segScore).filter (fun s => decide (0 < s))).length : ℚ) := by
        have := List.sum_le_card_nsmul
          ((results.map segScore).filter (fun s => decide (0 < s))) 1
          (fun x hx => (hmem x hx).2)
        simpa using this
      have hlpos : (0 : ℚ) <
          (((results.map segScore).filter (fun s => decide (0 < s))).length : ℚ) := by
        exact_mod_cast h0
      constructor
      · exact jsRound2_nonneg _ (div_nonneg hsum0 (le_of_lt hlpos))
      · exact jsRound2_le_one _ ((div_le_one hlpos).mpr hsum1)
    · rw [if_neg h0]
      constructor
      · exact jsRound2_nonneg 0 le_rfl
      · exact jsRound2_le_one 0 (by norm_num)
  · intro results h
    have hfil : (results.map segScore).filter (fun s => decide (0 < s)) = [] := by
      rw [List.filter_eq_nil_iff]
      intro a ha
      obtain ⟨r, hr, rfl⟩ := List.mem_map.mp ha
      simp only [decide_eq_true_eq]
      exact not_lt.mpr (h r hr)
    simp only [transcribeConfidence, hfil]
    norm_num [jsRound2]
  · intro env ctx data out effs hres h
    cases hval : transcribeValidate ctx data with
    | error e =>
      have heq : transcribeAudio env ctx data =
          (.error (wrapInternal "Failed to transcribe audio: " e), []) := by
        simp only [transcribeAudio, transcribeAudioTry, hval, Except.mapError]
      rw [heq] at h
      simp at h
    | ok v =>
      cases hex : env.existsResult with
      | error m =>
        have heq : transcribeAudio env ctx data =
            (.error (wrapInternal "Failed to transcribe audio: " (.err m)),
             [.blobExists v.audioPath]) := by
          simp only [transcribeAudio, transcribeAudioTry, hval, hex, Except.mapError]
        rw [heq] at h
        simp at h
      | ok b =>
        cases b with
        | false =>
          have heq : transcribeAudio env ctx data =
              (.error (wrapInternal "Failed to transcribe audio: " (.err "Audio file not found")),
               [.blobExists v.audioPath]) := by
            simp only [transcribeAudio, transcribeAudioTry, hval, hex, Except.mapError]
          rw [heq] at h
          simp at h
        | true =>
          cases hurl : env.urlResult with
          | error m =>
            have heq : transcribeAudio env ctx data =
                (.error (wrapInternal "Failed to transcribe audio: " (.err m)),
                 [.blobExists v.audioPath, .blobSignedUrl v.audioPath]) := by
              simp only [transcribeAudio, transcribeAudioTry, hval, hex, hurl, Except.mapError]
            rw [heq] at h
            simp at h
          | ok url =>
            rcases hres with hres | hres
            · have heq : transcribeAudio env ctx data =
                  (.ok ⟨"", 0, some "No speech detected in audio"⟩,
                   [.blobExists v.audioPath, .blobSignedUrl v.audioPath,
                    .speechRecognize ((languageCodeMap v.language).getD "en-IN")
                      ("gs://" ++ env.bucketName ++ "/" ++ v.audioPath)]) := by
                simp [transcribeAudio, transcribeAudioTry, hval, hex, hurl, hres,
                  Except.mapError]
              rw [heq] at h
              simp only [Prod.mk.injEq, Except.ok.injEq] at h
              rw [← h.1]
              exact ⟨rfl, rfl⟩
            · have heq : transcribeAudio env ctx data =
                  (.ok ⟨"", 0, some "No speech detected in audio"⟩,
                   [.blobExists v.audioPath, .blobSignedUrl v.audioPath,
                    .speechRecognize ((languageCodeMap v.language).getD "en-IN")
                      ("gs://" ++ env.bucketName ++ "/" ++ v.audioPath)]) := by
                simp [transcribeAudio, transcribeAudioTry, hval, hex, hurl, hres,
                  Except.mapError]
              rw [heq] at h
              simp only [Prod.mk.injEq, Except.ok.injEq] at h
              rw [← h.1]
              exact ⟨rfl, rfl⟩

/-- C8 witness: a response whose single segment has positive confidence has
transcription confidence equal to the all-segment mean of the claim. -/
theorem transcribe_confidence_contract_witness :
    transcribeConfidence [⟨[⟨some "a", some (1/2)⟩]⟩]
      = claimConfidenceAllSegments [⟨[⟨some "a", some (1/2)⟩]⟩] :=
  transcribe_confidence_contract.1 [⟨[⟨some "a", some (1/2)⟩]⟩] (by simp)
    (by
      intro r hr
      simp only [List.mem_singleton] at hr
      subst hr
      norm_num [segScore])

/-- C9 counterexample: with `area` present but empty, the prompt's Farm Area
slot is the interpolation "undefined undefined" — not the "Not specified"
placeholder the claim requires for missing area components. -/
theorem buildPrompt_area_undefined_cex :
    buildAgriculturalPrompt (.obj [("area", .obj [])]) "en" "q" =
      some (renderPrompt "Not specified" "Not specified" "Not specified" "Not specified"
        "Not specified" "Not specified" "undefined undefined" "Not specified" "English" "q")
    ∧ areaField (.obj [("area", .obj [])]) = "undefined undefined"
    ∧ ("undefined undefined" : String) ≠ "Not specified" :=
  ⟨rfl, rfl, by decide⟩

/-- C9 (amended): `buildAgriculturalPrompt` is a pure function of the
profile, language and question, assembling the fixed template from the
per-field substitution strings; every missing or falsy top-level field
(crops, soilType, irrigationType, season, area) and every missing nested
location field substitutes the literal "Not specified" — except that when
`area` is present (truthy), its missing `value`/`unit` components
interpolate as "undefined" rather than "Not specified". -/
theorem buildPrompt_not_specified_defaults (p : Json) (l q : String) :
    (jsGet (some p) "crops" = none → cropsField p = some "Not specified")
    ∧ (jsGet (some p) "location" = none →
        locField p "village" = "Not specified" ∧ locField p "district" = "Not specified"
        ∧ locField p "state" = "Not specified")
    ∧ (∀ loc k, jsGet (some p) "location" = some loc →
        jsTruthy (jsGet (some loc) k) = false → locField p k = "Not specified")
    ∧ (∀ k, jsTruthy (jsGet (some p) k) = false → simpleField p k = "Not specified")
    ∧ (jsTruthy (jsGet (some p) "area") = false → areaField p = "Not specified")
    ∧ (∀ a, jsGet (some p) "area" = some a → jsTruthy (some a) = true →
        jsGet (some a) "value" = none → jsGet (some a) "unit" = none →
        areaField p = "undefined undefined")
    ∧ buildAgriculturalPrompt p l q = (cropsField p).map (fun c =>
        renderPrompt c (locField p "village") (locField p "district") (locField p "state")
          (simpleField p "soilType") (simpleField p "irrigationType") (areaField p)
          (simpleField p "season") (langNameOf l) q) := by
  refine ⟨?_, ?_, ?_, ?_, ?_, ?_, ?_⟩
  · intro h
    simp [cropsField, h]
  · intro h
    refine ⟨?_, ?_, ?_⟩ <;> simp [locField, h]
  · intro loc k h1 h2
    cases loc with
    | null => simp [locField, h1]
    | bool b => simp [locField, h1, h2]
    | num m e => simp [locField, h1, h2]
    | str s => simp [locField, h1, h2]
    | arr xs => simp [locField, h1, h2]
    | obj kvs => simp [locField, h1, h2]
  · intro k h
    simp [simpleField, h]
  · intro h
    simp [areaField, h]
  · intro a h1 h2 h3 h4
    simp only [areaField, h1, h2, h3, h4, jsShow, if_true]
    rfl
  · cases hc : cropsField p with
    | none => simp [buildAgriculturalPrompt, hc]
    | some c => simp [buildAgriculturalPrompt, hc]

/-- C9 witness: on the empty profile every defaulted field is
"Not specified". -/
theorem buildPrompt_not_specified_defaults_witness :
    cropsField (.obj []) = some "Not specified"
    ∧ areaField (.obj []) = "Not specified"
    ∧ simpleField (.obj []) "soilType" = "Not specified" :=
  ⟨(buildPrompt_not_specified_defaults (.obj []) "en" "x").1 rfl,
   (buildPrompt_not_specified_defaults (.obj []) "en" "x").2.2.2.2.1 rfl,
   (buildPrompt_not_specified_defaults (.obj []) "en" "x").2.2.2.1 "soilType" rfl⟩

theorem validateLanguage_ok_inv (x : Option Json) (c : String)
    (h : validateLanguage x = .ok c) :
    x = some (.str c) ∧ (c = "en" ∨ c = "hi" ∨ c = "ta" ∨ c = "te") := by
  cases x with
  | none => simp [validateLanguage] at h
  | some j =>
    cases j with
    | str s =>
      have hstr : validateLanguage (some (.str s)) =
          (if s ≠ "" ∧ supportedLanguages.contains s then .ok s
           else .error (.err ("Unsupported language: " ++ s
             ++ ". Supported: en, hi, ta, te"))) := rfl
      by_cases hc : s ≠ "" ∧ supportedLanguages.contains s
      · rw [hstr, if_pos hc] at h
        injection h with h
        subst h
        refine ⟨rfl, ?_⟩
        have hmem := hc.2
        simp [supportedLanguages] at hmem
        tauto
      · rw [hstr, if_neg hc] at h
        simp at h
    | null => simp [validateLanguage] at h
    | bool b => simp [validateLanguage] at h
    | num m e => simp [validateLanguage] at h
    | arr xs => simp [validateLanguage] at h
    | obj kvs => simp [validateLanguage] at h

theorem synthesizeValidate_ok_language (ctx : CallContext) (data : Json)
    (v : SynthValidated) (h : synthesizeValidate ctx data = .ok v) :
    validateLanguage (jsGet (some data) "language") = .ok v.language := by
  cases h1 : validateAuth ctx with
  | error e => simp [synthesizeValidate, h1] at h
  | ok uid =>
  cases h2 : validateRequiredFields data ["text", "language"] with
  | error e => simp [synthesizeValidate, h1, h2] at h
  | ok u =>
  cases h3 : validateTextLength (jsGet (some data) "text") 5000 with
  | error e => simp [synthesizeValidate, h1, h2, h3] at h
  | ok text =>
  cases h4 : validateLanguage (jsGet (some data) "language") with
  | error e => simp [synthesizeValidate, h1, h2, h3, h4] at h
  | ok language =>
    have heq : synthesizeValidate ctx data = .ok ⟨uid, text, language⟩ := by
      simp [synthesizeValidate, h1, h2, h3, h4]
    rw [heq] at h
    injection h with h
    rw [← h]

theorem transcribeValidate_ok_language (ctx : CallContext) (data : Json)
    (v : TransValidated) (h : transcribeValidate ctx data = .ok v) :
    validateLanguage (jsGet (some data) "language") = .ok v.language := by
  cases h1 : validateAuth ctx with
  | error e => simp [transcribeValidate, h1] at h
  | ok uid =>
  cases h2 : validateRequiredFields data ["audioPath", "language"] with
  | error e => simp [transcribeValidate, h1, h2] at h
  | ok u =>
  cases h3 : validateAudioPath (jsGet (some data) "audioPath") with
  | error e => simp [transcribeValidate, h1, h2, h3] at h
  | ok audioPath =>
  cases h4 : validateLanguage (jsGet (some data) "language") with
  | error e => simp [transcribeValidate, h1, h2, h3, h4] at h
  | ok language =>
  cases h5 : hasSub ("audio/" ++ uid ++ "/") audioPath with
  | false => simp [transcribeValidate, h1, h2, h3, h4, h5] at h
  | true =>
    have heq : transcribeValidate ctx data = .ok ⟨uid, audioPath, language⟩ := by
      simp [transcribeValidate, h1, h2, h3, h4, h5]
    rw [heq] at h
    injection h with h
    rw [← h]

theorem synthesizeSpeechTry_voices (env : SynthEnv) (ctx : CallContext) (data : Json) :
    ttsVoices (synthesizeSpeechTry env ctx data).2 = []
    ∨ ∃ v', synthesizeValidate ctx data = .ok v'
        ∧ ttsVoices (synthesizeSpeechTry env ctx data).2
          = [(voiceConfig v'.language).getD ⟨"en-IN", "en-IN-Wavenet-D", "FEMALE"⟩] := by
  cases hval : synthesizeValidate ctx data with
  | error e =>
    left
    simp [synthesizeSpeechTry, hval, ttsVoices]
  | ok v' =>
    right
    refine ⟨v', rfl, ?_⟩
    cases h1 : env.ttsResult with
    | error m => simp [synthesizeSpeechTry, hval, h1, ttsVoices]
    | ok audio =>
      cases audio with
      | none => simp [synthesizeSpeechTry, hval, h1, ttsVoices]
      | some bytes =>
        cases h2 : env.saveResult with
        | error m => simp [synthesizeSpeechTry, hval, h1, h2, ttsVoices]
        | ok u =>
          cases h3 : env.urlResult with
          | error m => simp [synthesizeSpeechTry, hval, h1, h2, h3, ttsVoices]
          | ok url => simp [synthesizeSpeechTry, hval, h1, h2, h3, ttsVoices]

theorem transcribeAudioTry_locales (env : TransEnv) (ctx : CallContext) (data : Json) :
    recognizeLocales (transcribeAudioTry env ctx data).2 = []
    ∨ ∃ v', transcribeValidate ctx data = .ok v'
        ∧ recognizeLocales (transcribeAudioTry env ctx data).2
          = [(languageCodeMap v'.language).getD "en-IN"] := by
  cases hval : transcribeValidate ctx data with
  | error e =>
    left
    simp [transcribeAudioTry, hval, recognizeLocales]
  | ok v' =>
    cases h1 : env.existsResult with
    | error m =>
      left
      simp [transcribeAudioTry, hval, h1, recognizeLocales]
    | ok b =>
      cases b with
      | false =>
        left
        simp [transcribeAudioTry, hval, h1, recognizeLocales]
      | true =>
        cases h2 : env.urlResult with
        | error m =>
          left
          simp [transcribeAudioTry, hval, h1, h2, recognizeLocales]
        | ok url =>
          right
          refine ⟨v', rfl, ?_⟩
          cases h3 : env.recognizeResult with
          | error m => simp [transcribeAudioTry, hval, h1, h2, h3, recognizeLocales]
          | ok resp =>
            obtain ⟨results⟩ := resp
            cases results with
            | none => simp [transcribeAudioTry, hval, h1, h2, h3, recognizeLocales]
            | some rs =>
              by_cases hl : rs.length = 0
              · simp [transcribeAudioTry, hval, h1, h2, h3, hl, recognizeLocales]
              · simp [transcribeAudioTry, hval, h1, h2, h3, hl, recognizeLocales]

/-- C10: `validateLanguage` accepts exactly the four codes en, hi, ta, te;
for every accepted code both provider tables (`voiceConfig` for
text-to-speech and `languageCodeMap` for speech-to-text) have an entry, and
whenever a handler run reaches its provider call, the voice or locale it
uses is the table entry of the validated request language — the
fallback-to-English branches after validation are unreachable. -/
theorem language_provider_mappings_total :
    (∀ l : String, (∃ c, validateLanguage (some (.str l)) = .ok c) ↔
        (l = "en" ∨ l = "hi" ∨ l = "ta" ∨ l = "te"))
    ∧ (∀ l c, validateLanguage (some (.str l)) = .ok c →
        c = l ∧ (voiceConfig l).isSome = true ∧ (languageCodeMap l).isSome = true)
    ∧ (∀ env ctx data res effs v, synthesizeSpeech env ctx data = (res, effs) →
        ttsVoices effs = [v] →
        ∃ l, validateLanguage (jsGet (some data) "language") = .ok l
          ∧ voiceConfig l = some v)
    ∧ (∀ env ctx data res effs c, transcribeAudio env ctx data = (res, effs) →
        recognizeLocales effs = [c] →
        ∃ l, validateLanguage (jsGet (some data) "language") = .ok l
          ∧ languageCodeMap l = some c) := by
  refine ⟨?_, ?_, ?_, ?_⟩
  · intro l
    constructor
    · rintro ⟨c, hc⟩
      obtain ⟨hx, hmem⟩ := validateLanguage_ok_inv (some (.str l)) c hc
      injection hx with hx
      injection hx with hx
      rw [hx]
      exact hmem
    · rintro (rfl | rfl | rfl | rfl)
      · exact ⟨"en", rfl⟩
      · exact ⟨"hi", rfl⟩
      · exact ⟨"ta", rfl⟩
      · exact ⟨"te", rfl⟩
  · intro l c h
    obtain ⟨hx, hmem⟩ := validateLanguage_ok_inv (some (.str l)) c h
    injection hx with hx
    injection hx with hx
    subst hx
    rcases hmem with rfl | rfl | rfl | rfl <;> exact ⟨rfl, rfl, rfl⟩
  · intro env ctx data res effs v h hv
    have heffs : effs = (synthesizeSpeechTry env ctx data).2 := by
      rw [show (synthesizeSpeechTry env ctx data).2 = (synthesizeSpeech env ctx data).2 from rfl,
        h]
    rcases synthesizeSpeechTry_voices env ctx data with h0 | ⟨v', hval, hvoices⟩
    · rw [heffs, h0] at hv
      simp at hv
    · rw [heffs, hvoices] at hv
      injection hv with hv
      have hlang := synthesizeValidate_ok_language ctx data v' hval
      refine ⟨v'.language, hlang, ?_⟩
      obtain ⟨_, hmem⟩ := validateLanguage_ok_inv (jsGet (some data) "language")
        v'.language hlang
      rcases hmem with hm | hm | hm | hm <;> rw [hm] at hv ⊢ <;> rw [← hv] <;> rfl
  · intro env ctx data res effs c h hc
    have heffs : effs = (transcribeAudioTry env ctx data).2 := by
      rw [show (transcribeAudioTry env ctx data).2 = (transcribeAudio env ctx data).2 from rfl,
        h]
    rcases transcribeAudioTry_locales env ctx data with h0 | ⟨v', hval, hlocs⟩
    · rw [heffs, h0] at hc
      simp at hc
    · rw [heffs, hlocs] at hc
      injection hc with hc
      have hlang := transcribeValidate_ok_language ctx data v' hval
      refine ⟨v'.language, hlang, ?_⟩
      obtain ⟨_, hmem⟩ := validateLanguage_ok_inv (jsGet (some data) "language")
        v'.language hlang
      rcases hmem with hm | hm | hm | hm <;> rw [hm] at hc ⊢ <;> rw [← hc] <;> rfl

/-- C10 witness: the code "hi" is accepted, both tables contain it, and a
concrete synthesis run uses exactly the Hindi voice. -/
theorem language_provider_mappings_total_witness :
    ("hi" : String) = "hi" ∧ (voiceConfig "hi").isSome = true
      ∧ (languageCodeMap "hi").isSome = true :=
  language_provider_mappings_total.2.1 "hi" "hi" rfl
